import Mathlib

/-!
Shallow embedding of the Runway MCP tool adapters (heygen-mcp repository).

Each tool module exports an `executeFunction` handler that validates its
arguments, checks the `RUNWAY_API_KEY` environment value, builds a request
parameter object, performs one vendor-SDK call, and normalizes the vendor
outcome into a flat result envelope (`success` plus operation-specific
fields).  JavaScript `undefined`/absent values are modelled with `Option`;
JS string truthiness (`!s` is true for `undefined` and `""`) is modelled by
`truthy`.  The JS field named `ratio` is modelled by the Lean field `aspect`
(same contents, renamed only in the embedding).  The vendor SDK is modelled
as an oracle record `Vendor`; each handler is split into a pre-flight
function (validation and key check, returning `Except Envelope params`) and
a normalizer, so that "no vendor call is made" is expressed as the
pre-flight returning `Except.error`.
-/

namespace Runway

/-- JS truthiness of an optional string: `undefined`/`null` and `""` are falsy. -/
def truthy : Option String → Bool
  | none => false
  | some s => s ≠ ""

/-- Reference image object: `uri` (required by validation) and optional `tag`. -/
structure RefImage where
  uri : Option String := none
  tag : Option String := none
deriving Repr, DecidableEq

/-- Vendor task object as consumed by the handlers (fields read off the SDK task). -/
structure Task where
  id : Option String := none
  status : Option String := none
  output : Option (List String) := none
  createdAt : Option String := none
  updatedAt : Option String := none
  model : Option String := none
  promptText : Option String := none
  promptImage : Option String := none
  promptVideo : Option String := none
  aspect : Option String := none
  duration : Option Int := none
  seed : Option Int := none
  failureReason : Option String := none
  progress : Option Int := none
  estimatedTimeRemaining : Option Int := none
  canceledAt : Option String := none
  type : Option String := none
  referenceImages : Option (List RefImage) := none
deriving Repr, DecidableEq

/-- Error value thrown by the vendor SDK, as inspected by the catch blocks:
`name` (for `TaskFailedError`), HTTP `status`, `message`, and the
`taskDetails` diagnostic payload of a failed task. -/
structure JsError where
  name : Option String := none
  status : Option Int := none
  message : Option String := none
  taskDetails : Option Task := none
deriving Repr, DecidableEq

/-- Outcome of one awaited vendor call: the task resolved, or an error was thrown. -/
inductive VendorOutcome where
  | ok (task : Task)
  | thrown (e : JsError)
deriving Repr, DecidableEq

/-- Request parameter object built by the generation handlers.  A field is
`none` exactly when the JS code leaves the property unset. -/
structure GenParams where
  model : Option String := none
  promptText : Option String := none
  promptImage : Option String := none
  promptVideo : Option String := none
  aspect : Option String := none
  duration : Option Int := none
  seed : Option Int := none
  style : Option String := none
  referenceImages : Option (List RefImage) := none
deriving Repr, DecidableEq

/-- Request parameter object built by the ListTasks handler. -/
structure ListParams where
  limit : Int := 10
  status : Option String := none
  cursor : Option String := none
deriving Repr, DecidableEq

/-- Vendor response to `tasks.list`. -/
structure ListResponse where
  data : Option (List Task) := none
  hasMore : Option Bool := none
  nextCursor : Option String := none
  total : Option Int := none
deriving Repr, DecidableEq

/-- Outcome of the `tasks.list` vendor call. -/
inductive ListOutcome where
  | ok (resp : ListResponse)
  | thrown (e : JsError)
deriving Repr, DecidableEq

/-- Per-task summary produced by the vendor-call variant of ListTasks. -/
structure TaskSummary where
  taskId : Option String := none
  status : Option String := none
  createdAt : Option String := none
  updatedAt : Option String := none
  model : Option String := none
  type : Option String := none
  output : Option (List String) := none
  promptText : Option String := none
  promptImage : Option String := none
  failureReason : Option String := none
deriving Repr, DecidableEq

/-- Uniform result envelope: a field is `none` when the JS object omits the
key.  `imageUrl`/`videoUrl` use a nested option: `some none` is an explicit
JS `null`, `some (some u)` is the URL `u`. -/
structure Envelope where
  success : Bool
  error : Option String := none
  message : Option String := none
  suggestion : Option String := none
  details : Option Task := none
  taskId : Option String := none
  status : Option String := none
  output : Option (List String) := none
  imageUrl : Option (Option String) := none
  videoUrl : Option (Option String) := none
  createdAt : Option String := none
  updatedAt : Option String := none
  canceledAt : Option String := none
  model : Option String := none
  promptText : Option String := none
  promptImage : Option String := none
  promptVideo : Option String := none
  aspect : Option String := none
  duration : Option Int := none
  failureReason : Option String := none
  progress : Option Int := none
  estimatedTimeRemaining : Option Int := none
  referenceImages : Option (List RefImage) := none
  tasks : Option (List TaskSummary) := none
  hasMore : Option Bool := none
  nextCursor : Option String := none
  total : Option Int := none
deriving Repr, DecidableEq

/-- Vendor SDK oracle: one field per SDK sub-operation used by the handlers. -/
structure Vendor where
  textToImage : GenParams → VendorOutcome
  textToVideo : GenParams → VendorOutcome
  imageToVideo : GenParams → VendorOutcome
  videoToVideo : GenParams → VendorOutcome
  videoUpscale : GenParams → VendorOutcome
  tasksRetrieve : String → VendorOutcome
  tasksCancel : String → VendorOutcome
  tasksList : ListParams → ListOutcome

/-- Value of `task.output && task.output[0] ? task.output[0] : null`:
`none` models JS `null` (output missing, empty, or first element falsy). -/
def firstOutput : Option (List String) → Option String
  | none => none
  | some l =>
    match l.head? with
    | none => none
    | some s => if s = "" then none else some s

/-- Index of the first reference image failing the `!img.uri` check, scanning
in order as the JS validation loop does. -/
def firstMissingUri : List RefImage → Option Nat
  | [] => none
  | r :: rs =>
    if truthy r.uri then (firstMissingUri rs).map (fun n => n + 1) else some 0

/-- True when `pat` occurs as a contiguous sublist. -/
def containsSub (pat : List Char) : List Char → Bool
  | [] => pat.isEmpty
  | c :: rest => pat.isPrefixOf (c :: rest) || containsSub pat rest

/-- JS `s.includes(pat)`: `pat` occurs as a substring of `s`. -/
def strIncludes (s pat : String) : Bool :=
  containsSub pat.data s.data

/-- JS `o || d` for optional strings (falsy `o` falls back to `d`). -/
def orTruthy (o : Option String) (d : String) : String :=
  match o with
  | none => d
  | some s => if s = "" then d else s

/-- Shared error message returned by every handler when `RUNWAY_API_KEY` is unset. -/
def keyErrMsg : String := "RUNWAY_API_KEY environment variable is not set."

/-- Envelope returned by every handler when `RUNWAY_API_KEY` is unset. -/
def keyFailEnv : Envelope := { success := false, error := some keyErrMsg }

/-- JS `o?.includes(pat)` on an optional string (undefined short-circuits to false). -/
def optIncludes (o : Option String) (pat : String) : Bool :=
  match o with
  | none => false
  | some s => strIncludes s pat

/-- Arguments of GenerateImage (generate-image.js); destructuring defaults are
applied in `genImageParams`. -/
structure GenImageArgs where
  promptText : Option String := none
  model : Option String := none
  aspect : Option String := none
  seed : Option Int := none
  style : Option String := none
deriving Repr, DecidableEq

/-- Required list declared by the GenerateImage parameter schema. -/
def genImageSchemaRequired : List String := ["promptText"]

/-- Request parameters built by GenerateImage: `model`/`ratio` defaulted at
destructuring, `seed` added when not undefined, `style` added when truthy.
`promptText` is placed as-is (there is no local required check for it). -/
def genImageParams (a : GenImageArgs) : GenParams :=
  { model := some (a.model.getD "gen4_image")
    promptText := a.promptText
    aspect := some (a.aspect.getD "1920:1080")
    seed := a.seed
    style := if truthy a.style then a.style else none }

/-- Pre-flight of GenerateImage: only the API-key check precedes the vendor call. -/
def genImagePre (key : Option String) (a : GenImageArgs) : Except Envelope GenParams :=
  if truthy key then Except.ok (genImageParams a) else Except.error keyFailEnv

/-- Normalizer of GenerateImage: success echo, TaskFailedError branch, generic catch. -/
def genImageNormalize (out : VendorOutcome) : Envelope :=
  match out with
  | VendorOutcome.ok t =>
    { success := true
      taskId := t.id
      status := t.status
      output := t.output
      imageUrl := some (firstOutput t.output)
      createdAt := t.createdAt
      model := t.model
      promptText := t.promptText
      aspect := t.aspect }
  | VendorOutcome.thrown e =>
    if e.name = some "TaskFailedError" then
      { success := false
        error := some "Image generation task failed"
        details := e.taskDetails
        taskId := e.taskDetails.bind Task.id }
    else
      { success := false
        error := some "An error occurred while generating the image"
        message := e.message }

/-- GenerateImage handler: pre-flight, then one `textToImage` vendor call. -/
def genImageRun (key : Option String) (a : GenImageArgs) (v : Vendor) : Envelope :=
  match genImagePre key a with
  | Except.error env => env
  | Except.ok p => genImageNormalize (v.textToImage p)

/-- Arguments of GenerateImageWithReferences (generate-image-with-references.js). -/
structure GenImageRefsArgs where
  promptText : Option String := none
  referenceImages : Option (List RefImage) := none
  model : Option String := none
  aspect : Option String := none
  seed : Option Int := none
deriving Repr, DecidableEq

/-- Required list declared by the GenerateImageWithReferences parameter schema. -/
def genImageRefsSchemaRequired : List String := ["promptText", "referenceImages"]

/-- Bounds declared by the GenerateImageWithReferences referenceImages schema. -/
def genImageRefsSchemaMinItems : Nat := 1

/-- Declared maxItems of the GenerateImageWithReferences referenceImages schema. -/
def genImageRefsSchemaMaxItems : Nat := 4

/-- Error for a missing or empty referenceImages array. -/
def refsEmptyErrMsg : String := "referenceImages must be a non-empty array"

/-- Error for a reference image lacking a uri, naming its index. -/
def refIndexErrMsg (i : Nat) : String :=
  "Reference image at index " ++ toString i ++ " must have a \x27uri\x27 property"

/-- Request parameters built by GenerateImageWithReferences. -/
def genImageRefsParams (a : GenImageRefsArgs) (refs : List RefImage) : GenParams :=
  { model := some (a.model.getD "gen4_image")
    promptText := a.promptText
    aspect := some (a.aspect.getD "1920:1080")
    referenceImages := some refs
    seed := a.seed }

/-- Pre-flight of GenerateImageWithReferences: array/non-empty check, per-element
uri check (first failing index wins), then the API-key check.  There is no
local check of `promptText` and no upper bound on the list length. -/
def genImageRefsPre (key : Option String) (a : GenImageRefsArgs) :
    Except Envelope GenParams :=
  match a.referenceImages with
  | none => Except.error { success := false, error := some refsEmptyErrMsg }
  | some refs =>
    if refs.isEmpty then
      Except.error { success := false, error := some refsEmptyErrMsg }
    else
      match firstMissingUri refs with
      | some i => Except.error { success := false, error := some (refIndexErrMsg i) }
      | none =>
        if truthy key then Except.ok (genImageRefsParams a refs)
        else Except.error keyFailEnv

/-- Normalizer of GenerateImageWithReferences. -/
def genImageRefsNormalize (out : VendorOutcome) : Envelope :=
  match out with
  | VendorOutcome.ok t =>
    { success := true
      taskId := t.id
      status := t.status
      output := t.output
      imageUrl := some (firstOutput t.output)
      createdAt := t.createdAt
      model := t.model
      promptText := t.promptText
      aspect := t.aspect
      referenceImages := t.referenceImages }
  | VendorOutcome.thrown e =>
    if e.name = some "TaskFailedError" then
      { success := false
        error := some "Image generation task failed"
        details := e.taskDetails
        taskId := e.taskDetails.bind Task.id }
    else
      { success := false
        error := some "An error occurred while generating the image with references"
        message := e.message }

/-- GenerateImageWithReferences handler (vendor endpoint `textToImage`). -/
def genImageRefsRun (key : Option String) (a : GenImageRefsArgs) (v : Vendor) :
    Envelope :=
  match genImageRefsPre key a with
  | Except.error env => env
  | Except.ok p => genImageRefsNormalize (v.textToImage p)

/-- Arguments of GenerateVideoFromText (generate-video-from-text.js). -/
structure GenVideoTextArgs where
  promptText : Option String := none
  model : Option String := none
  aspect : Option String := none
  duration : Option Int := none
  seed : Option Int := none
deriving Repr, DecidableEq

/-- Required list declared by the GenerateVideoFromText parameter schema. -/
def genVideoTextSchemaRequired : List String := ["promptText"]

/-- Request parameters built by GenerateVideoFromText (defaults gen4_turbo,
1280:720, duration 5). -/
def genVideoTextParams (a : GenVideoTextArgs) : GenParams :=
  { model := some (a.model.getD "gen4_turbo")
    promptText := a.promptText
    aspect := some (a.aspect.getD "1280:720")
    duration := some (a.duration.getD 5)
    seed := a.seed }

/-- Pre-flight of GenerateVideoFromText: only the API-key check (no local
required check for `promptText`). -/
def genVideoTextPre (key : Option String) (a : GenVideoTextArgs) :
    Except Envelope GenParams :=
  if truthy key then Except.ok (genVideoTextParams a) else Except.error keyFailEnv

/-- Normalizer of GenerateVideoFromText. -/
def genVideoTextNormalize (out : VendorOutcome) : Envelope :=
  match out with
  | VendorOutcome.ok t =>
    { success := true
      taskId := t.id
      status := t.status
      output := t.output
      videoUrl := some (firstOutput t.output)
      createdAt := t.createdAt
      model := t.model
      promptText := t.promptText
      aspect := t.aspect
      duration := t.duration }
  | VendorOutcome.thrown e =>
    if e.name = some "TaskFailedError" then
      { success := false
        error := some "Video generation task failed"
        details := e.taskDetails
        taskId := e.taskDetails.bind Task.id }
    else
      { success := false
        error := some "An error occurred while generating the video from text"
        message := e.message }

/-- GenerateVideoFromText handler (vendor endpoint `textToVideo`). -/
def genVideoTextRun (key : Option String) (a : GenVideoTextArgs) (v : Vendor) :
    Envelope :=
  match genVideoTextPre key a with
  | Except.error env => env
  | Except.ok p => genVideoTextNormalize (v.textToVideo p)

/-- Arguments of GenerateVideoFromImage (generate-video-from-image.js). -/
structure GenVideoImageArgs where
  promptImage : Option String := none
  promptText : Option String := none
  model : Option String := none
  aspect : Option String := none
  duration : Option Int := none
  seed : Option Int := none
deriving Repr, DecidableEq

/-- Required list declared by the GenerateVideoFromImage parameter schema. -/
def genVideoImageSchemaRequired : List String := ["promptImage"]

/-- Request parameters built by GenerateVideoFromImage: `promptText` is added
only when truthy, `seed` only when not undefined. -/
def genVideoImageParams (a : GenVideoImageArgs) : GenParams :=
  { model := some (a.model.getD "gen4_turbo")
    promptImage := a.promptImage
    aspect := some (a.aspect.getD "1280:720")
    duration := some (a.duration.getD 5)
    promptText := if truthy a.promptText then a.promptText else none
    seed := a.seed }

/-- Pre-flight of GenerateVideoFromImage: `promptImage` required check, then
the API-key check. -/
def genVideoImagePre (key : Option String) (a : GenVideoImageArgs) :
    Except Envelope GenParams :=
  if truthy a.promptImage then
    if truthy key then Except.ok (genVideoImageParams a) else Except.error keyFailEnv
  else
    Except.error { success := false, error := some "promptImage is required" }

/-- Normalizer of GenerateVideoFromImage. -/
def genVideoImageNormalize (out : VendorOutcome) : Envelope :=
  match out with
  | VendorOutcome.ok t =>
    { success := true
      taskId := t.id
      status := t.status
      output := t.output
      videoUrl := some (firstOutput t.output)
      createdAt := t.createdAt
      model := t.model
      promptImage := t.promptImage
      promptText := t.promptText
      aspect := t.aspect
      duration := t.duration }
  | VendorOutcome.thrown e =>
    if e.name = some "TaskFailedError" then
      { success := false
        error := some "Video generation task failed"
        details := e.taskDetails
        taskId := e.taskDetails.bind Task.id }
    else
      { success := false
        error := some "An error occurred while generating the video from image"
        message := e.message }

/-- GenerateVideoFromImage handler (vendor endpoint `imageToVideo`). -/
def genVideoImageRun (key : Option String) (a : GenVideoImageArgs) (v : Vendor) :
    Envelope :=
  match genVideoImagePre key a with
  | Except.error env => env
  | Except.ok p => genVideoImageNormalize (v.imageToVideo p)

/-- Arguments of GenerateVideoFromVideo (generate-video-from-video.js);
`referenceImages` defaults to `[]` at destructuring. -/
structure GenVideoVideoArgs where
  promptVideo : Option String := none
  promptText : Option String := none
  referenceImages : Option (List RefImage) := none
  model : Option String := none
  aspect : Option String := none
  duration : Option Int := none
  seed : Option Int := none
deriving Repr, DecidableEq

/-- Required list declared by the GenerateVideoFromVideo parameter schema. -/
def genVideoVideoSchemaRequired : List String := ["promptVideo", "promptText"]

/-- Declared maxItems of the GenerateVideoFromVideo referenceImages schema. -/
def genVideoVideoSchemaMaxItems : Nat := 4

/-- Request parameters built by GenerateVideoFromVideo: `referenceImages` is
added only when the (defaulted) list is non-empty. -/
def genVideoVideoParams (a : GenVideoVideoArgs) : GenParams :=
  let refs := a.referenceImages.getD []
  { model := some (a.model.getD "gen4_turbo")
    promptVideo := a.promptVideo
    promptText := a.promptText
    aspect := some (a.aspect.getD "1280:720")
    duration := some (a.duration.getD 5)
    referenceImages := if refs.isEmpty then none else some refs
    seed := a.seed }

/-- Pre-flight of GenerateVideoFromVideo: `promptVideo` and `promptText`
required checks, the per-element uri loop (run only when the defaulted list
is non-empty, with no upper length bound), then the API-key check. -/
def genVideoVideoPre (key : Option String) (a : GenVideoVideoArgs) :
    Except Envelope GenParams :=
  let refs := a.referenceImages.getD []
  if truthy a.promptVideo then
    if truthy a.promptText then
      match (if refs.isEmpty then none else firstMissingUri refs) with
      | some i => Except.error { success := false, error := some (refIndexErrMsg i) }
      | none =>
        if truthy key then Except.ok (genVideoVideoParams a)
        else Except.error keyFailEnv
    else
      Except.error { success := false, error := some "promptText is required" }
  else
    Except.error { success := false, error := some "promptVideo is required" }

/-- Normalizer of GenerateVideoFromVideo. -/
def genVideoVideoNormalize (out : VendorOutcome) : Envelope :=
  match out with
  | VendorOutcome.ok t =>
    { success := true
      taskId := t.id
      status := t.status
      output := t.output
      videoUrl := some (firstOutput t.output)
      createdAt := t.createdAt
      model := t.model
      promptVideo := t.promptVideo
      promptText := t.promptText
      referenceImages := t.referenceImages
      aspect := t.aspect
      duration := t.duration }
  | VendorOutcome.thrown e =>
    if e.name = some "TaskFailedError" then
      { success := false
        error := some "Video-to-video generation task failed"
        details := e.taskDetails
        taskId := e.taskDetails.bind Task.id }
    else
      { success := false
        error := some "An error occurred while generating the video from video"
        message := e.message }

/-- GenerateVideoFromVideo handler (vendor endpoint `videoToVideo`). -/
def genVideoVideoRun (key : Option String) (a : GenVideoVideoArgs) (v : Vendor) :
    Envelope :=
  match genVideoVideoPre key a with
  | Except.error env => env
  | Except.ok p => genVideoVideoNormalize (v.videoToVideo p)

/-- Arguments of UpscaleVideo (upscale-video.js). -/
structure UpscaleVideoArgs where
  promptVideo : Option String := none
  model : Option String := none
deriving Repr, DecidableEq

/-- Required list declared by the UpscaleVideo parameter schema. -/
def upscaleVideoSchemaRequired : List String := ["promptVideo"]

/-- Request parameters built by UpscaleVideo (default model upscale_video). -/
def upscaleVideoParams (a : UpscaleVideoArgs) : GenParams :=
  { model := some (a.model.getD "upscale_video")
    promptVideo := a.promptVideo }

/-- Pre-flight of UpscaleVideo: `promptVideo` required check, then the API-key check. -/
def upscaleVideoPre (key : Option String) (a : UpscaleVideoArgs) :
    Except Envelope GenParams :=
  if truthy a.promptVideo then
    if truthy key then Except.ok (upscaleVideoParams a) else Except.error keyFailEnv
  else
    Except.error { success := false, error := some "promptVideo is required" }

/-- Normalizer of UpscaleVideo. -/
def upscaleVideoNormalize (out : VendorOutcome) : Envelope :=
  match out with
  | VendorOutcome.ok t =>
    { success := true
      taskId := t.id
      status := t.status
      output := t.output
      videoUrl := some (firstOutput t.output)
      createdAt := t.createdAt
      model := t.model
      promptVideo := t.promptVideo }
  | VendorOutcome.thrown e =>
    if e.name = some "TaskFailedError" then
      { success := false
        error := some "Video upscaling task failed"
        details := e.taskDetails
        taskId := e.taskDetails.bind Task.id }
    else
      { success := false
        error := some "An error occurred while upscaling the video"
        message := e.message }

/-- UpscaleVideo handler (vendor endpoint `videoUpscale`). -/
def upscaleVideoRun (key : Option String) (a : UpscaleVideoArgs) (v : Vendor) :
    Envelope :=
  match upscaleVideoPre key a with
  | Except.error env => env
  | Except.ok p => upscaleVideoNormalize (v.videoUpscale p)

/-- Arguments of GetTaskStatus and CancelTask. -/
structure TaskIdArgs where
  taskId : Option String := none
deriving Repr, DecidableEq

/-- Required list declared by the GetTaskStatus parameter schema. -/
def getTaskStatusSchemaRequired : List String := ["taskId"]

/-- Required list declared by the CancelTask parameter schema. -/
def cancelTaskSchemaRequired : List String := ["taskId"]

/-- Pre-flight shared in shape by GetTaskStatus and CancelTask: the
`!taskId` required check, then the API-key check; on success the taskId
string passed to the vendor call. -/
def taskIdPre (key : Option String) (a : TaskIdArgs) : Except Envelope String :=
  match a.taskId with
  | none => Except.error { success := false, error := some "taskId is required" }
  | some tid =>
    if tid = "" then
      Except.error { success := false, error := some "taskId is required" }
    else if truthy key then Except.ok tid
    else Except.error keyFailEnv

/-- Normalizer of GetTaskStatus: success echo of the task record; catch maps
status 404 to "Task not found" and anything else to the generic failure. -/
def getTaskStatusNormalize (tid : String) (out : VendorOutcome) : Envelope :=
  match out with
  | VendorOutcome.ok t =>
    { success := true
      taskId := t.id
      status := t.status
      createdAt := t.createdAt
      updatedAt := t.updatedAt
      output := t.output
      failureReason := t.failureReason
      model := t.model
      promptText := t.promptText
      promptImage := t.promptImage
      aspect := t.aspect
      duration := t.duration
      progress := t.progress
      estimatedTimeRemaining := t.estimatedTimeRemaining }
  | VendorOutcome.thrown e =>
    if e.status = some 404 then
      { success := false, error := some "Task not found", taskId := some tid }
    else
      { success := false
        error := some "An error occurred while retrieving the task status"
        message := e.message
        taskId := some tid }

/-- GetTaskStatus handler (vendor endpoint `tasks.retrieve`). -/
def getTaskStatusRun (key : Option String) (a : TaskIdArgs) (v : Vendor) : Envelope :=
  match taskIdPre key a with
  | Except.error env => env
  | Except.ok tid => getTaskStatusNormalize tid (v.tasksRetrieve tid)

/-- Normalizer of CancelTask: success echo with `canceledAt` falling back to
the current time; catch classifies 404 before the 400 "cannot be canceled"
match before the generic failure. -/
def cancelTaskNormalize (tid now : String) (out : VendorOutcome) : Envelope :=
  match out with
  | VendorOutcome.ok r =>
    { success := true
      taskId := some tid
      status := r.status
      message := some "Task cancellation requested"
      canceledAt := some (orTruthy r.canceledAt now) }
  | VendorOutcome.thrown e =>
    if e.status = some 404 then
      { success := false, error := some "Task not found", taskId := some tid }
    else if e.status = some 400 ∧ optIncludes e.message "cannot be canceled" then
      { success := false
        error := some "Task cannot be canceled (may already be completed or failed)"
        taskId := some tid }
    else
      { success := false
        error := some "An error occurred while canceling the task"
        message := e.message
        taskId := some tid }

/-- CancelTask handler (vendor endpoint `tasks.cancel`); `now` models the
`new Date().toISOString()` fallback. -/
def cancelTaskRun (key : Option String) (a : TaskIdArgs) (now : String) (v : Vendor) :
    Envelope :=
  match taskIdPre key a with
  | Except.error env => env
  | Except.ok tid => cancelTaskNormalize tid now (v.tasksCancel tid)

/-- Arguments of ListTasks (both variants); `limit` defaults to 10 at
destructuring. -/
structure ListArgs where
  limit : Option Int := none
  status : Option String := none
  cursor : Option String := none
deriving Repr, DecidableEq

/-- Required list declared by the ListTasks parameter schema. -/
def listTasksSchemaRequired : List String := []

/-- Request parameters built by ListTasks: limit clamped with
`Math.min(limit, 100)`, `status`/`cursor` added when truthy. -/
def listTasksParams (a : ListArgs) : ListParams :=
  { limit := min (a.limit.getD 10) 100
    status := if truthy a.status then a.status else none
    cursor := if truthy a.cursor then a.cursor else none }

/-- Pre-flight of the vendor-call ListTasks variant: only the API-key check. -/
def listTasksPre (key : Option String) (a : ListArgs) : Except Envelope ListParams :=
  if truthy key then Except.ok (listTasksParams a) else Except.error keyFailEnv

/-- Mapping of one vendor task into the summary shape of the ListTasks response. -/
def taskToSummary (t : Task) : TaskSummary :=
  { taskId := t.id
    status := t.status
    createdAt := t.createdAt
    updatedAt := t.updatedAt
    model := t.model
    type := t.type
    output := t.output
    promptText := t.promptText
    promptImage := t.promptImage
    failureReason := t.failureReason }

/-- Normalizer of the vendor-call ListTasks variant. -/
def listTasksNormalize (out : ListOutcome) : Envelope :=
  match out with
  | ListOutcome.ok resp =>
    { success := true
      tasks := some (match resp.data with
        | some l => l.map taskToSummary
        | none => [])
      hasMore := resp.hasMore
      nextCursor := resp.nextCursor
      total := resp.total }
  | ListOutcome.thrown e =>
    { success := false
      error := some "An error occurred while listing tasks"
      message := e.message }

/-- ListTasks handler, vendor-call variant (list-tasks.js): calls `tasks.list`. -/
def listTasksRun (key : Option String) (a : ListArgs) (v : Vendor) : Envelope :=
  match listTasksPre key a with
  | Except.error env => env
  | Except.ok p => listTasksNormalize (v.tasksList p)

/-- Fixed message of the unsupported ListTasks variant. -/
def unsupportedListMsg : String :=
  "The Runway API does not provide a list tasks endpoint. You need to track task IDs from generation responses and use GetTaskStatus to check individual tasks."

/-- Fixed suggestion of the unsupported ListTasks variant. -/
def unsupportedListSuggestion : String :=
  "Use GetTaskStatus with task IDs returned from generation methods (GenerateImage, GenerateVideo, etc.)"

/-- ListTasks handler, unsupported variant (src/unnamed/part_002): after the
API-key check it builds the same params object but never calls the vendor,
returning a fixed "Task listing not supported" failure. -/
def listTasksUnsupportedRun (key : Option String) (a : ListArgs) : Envelope :=
  if truthy key then
    let _params := listTasksParams a
    { success := false
      error := some "Task listing not supported"
      message := some unsupportedListMsg
      suggestion := some unsupportedListSuggestion }
  else keyFailEnv

/-- Vendor fixture whose every endpoint throws a bare error object. -/
def idleVendor : Vendor :=
  { textToImage := fun _ => VendorOutcome.thrown {}
    textToVideo := fun _ => VendorOutcome.thrown {}
    imageToVideo := fun _ => VendorOutcome.thrown {}
    videoToVideo := fun _ => VendorOutcome.thrown {}
    videoUpscale := fun _ => VendorOutcome.thrown {}
    tasksRetrieve := fun _ => VendorOutcome.thrown {}
    tasksCancel := fun _ => VendorOutcome.thrown {}
    tasksList := fun _ => ListOutcome.thrown {} }

/-- Completed-task fixture with a given output collection. -/
def okTask (outs : List String) : Task :=
  { id := some "task-1"
    status := some "SUCCEEDED"
    output := some outs
    createdAt := some "2025-01-01T00:00:00Z" }

/-- Vendor fixture whose generation endpoints all resolve to `okTask outs`. -/
def okVendor (outs : List String) : Vendor :=
  { textToImage := fun _ => VendorOutcome.ok (okTask outs)
    textToVideo := fun _ => VendorOutcome.ok (okTask outs)
    imageToVideo := fun _ => VendorOutcome.ok (okTask outs)
    videoToVideo := fun _ => VendorOutcome.ok (okTask outs)
    videoUpscale := fun _ => VendorOutcome.ok (okTask outs)
    tasksRetrieve := fun _ => VendorOutcome.ok (okTask outs)
    tasksCancel := fun _ => VendorOutcome.ok (okTask outs)
    tasksList := fun _ => ListOutcome.ok {} }

/-- Vendor fixture whose task endpoints throw a 404 error. -/
def notFoundVendor : Vendor :=
  { idleVendor with
    tasksCancel := fun _ => VendorOutcome.thrown { status := some 404 }
    tasksRetrieve := fun _ => VendorOutcome.thrown { status := some 404 } }

/-- Vendor fixture whose cancel endpoint throws the 400 not-cancelable error. -/
def notCancelableVendor : Vendor :=
  { idleVendor with
    tasksCancel := fun _ =>
      VendorOutcome.thrown
        { status := some 400, message := some "Task t-9 cannot be canceled" } }

/-- Vendor fixture whose task endpoints throw a generic transport error. -/
def transportErrVendor : Vendor :=
  { idleVendor with
    tasksCancel := fun _ => VendorOutcome.thrown { message := some "network down" }
    tasksRetrieve := fun _ => VendorOutcome.thrown { message := some "network down" } }

/-- Diagnostic payload fixture carried by a failed task error. -/
def failedDetails : Task := { id := some "t-7", status := some "FAILED" }

/-- Vendor fixture whose generation endpoints all throw TaskFailedError. -/
def taskFailedVendor : Vendor :=
  { textToImage := fun _ =>
      VendorOutcome.thrown
        { name := some "TaskFailedError", taskDetails := some failedDetails }
    textToVideo := fun _ =>
      VendorOutcome.thrown
        { name := some "TaskFailedError", taskDetails := some failedDetails }
    imageToVideo := fun _ =>
      VendorOutcome.thrown
        { name := some "TaskFailedError", taskDetails := some failedDetails }
    videoToVideo := fun _ =>
      VendorOutcome.thrown
        { name := some "TaskFailedError", taskDetails := some failedDetails }
    videoUpscale := fun _ =>
      VendorOutcome.thrown
        { name := some "TaskFailedError", taskDetails := some failedDetails }
    tasksRetrieve := fun _ => VendorOutcome.thrown {}
    tasksCancel := fun _ => VendorOutcome.thrown {}
    tasksList := fun _ => ListOutcome.thrown {} }

/-- Vendor fixture rejecting requests with a 400-style validation error. -/
def enumRejectVendor : Vendor :=
  { idleVendor with
    textToImage := fun _ =>
      VendorOutcome.thrown { status := some 400, message := some "ratio: invalid value" } }

/-- Five-element reference list fixture, exceeding the declared maxItems of 4. -/
def fiveRefs : List RefImage :=
  [{ uri := some "u-1" }, { uri := some "u-2" }, { uri := some "u-3" },
   { uri := some "u-4" }, { uri := some "u-5" }]

/-- Exactly-one-shape property of a result envelope: either `success: true`
with no `error` key, or `success: false` with a non-empty `error` string. -/
def envelopeShapeOk (e : Envelope) : Prop :=
  (e.success = true ∧ e.error = none) ∨
  (e.success = false ∧ ∃ s, e.error = some s ∧ s ≠ "")

/-- Primary output locator written from the spec sentence, for comparison with
the code's `firstOutput`: the first element of the output collection, or
null when the output is absent or empty. -/
def specPrimaryLocator (output : Option (List String)) : Option String :=
  match output with
  | none => none
  | some l => l.head?

/-- Unset optional strings are falsy. -/
theorem truthy_none : truthy none = false := rfl

/-- The index-naming reference-image error message is never empty. -/
theorem refIndexErrMsg_ne_empty (i : Nat) : refIndexErrMsg i ≠ "" := by
  intro h
  have h2 : (refIndexErrMsg i).length = 0 := by rw [h]; rfl
  unfold refIndexErrMsg at h2
  rw [String.length_append, String.length_append] at h2
  have h3 : ("Reference image at index " : String).length = 25 := rfl
  omega

/-- Success shape of `envelopeShapeOk`. -/
theorem shapeOk_ok {e : Envelope} (h1 : e.success = true) (h2 : e.error = none) :
    envelopeShapeOk e :=
  Or.inl ⟨h1, h2⟩

/-- Failure shape of `envelopeShapeOk`. -/
theorem shapeOk_err {e : Envelope} {s : String} (h1 : e.success = false)
    (h2 : e.error = some s) (h3 : s ≠ "") : envelopeShapeOk e :=
  Or.inr ⟨h1, s, h2, h3⟩

/-- The shared key-missing envelope satisfies the shape property. -/
theorem shapeOk_keyFailEnv : envelopeShapeOk keyFailEnv :=
  shapeOk_err rfl rfl (by decide)

/-- C1 counterexample: the GenerateImage schema declares `promptText` required,
yet its handler performs no local check of it — with the key set and
`promptText` absent, pre-flight succeeds, the vendor call is made, and the
invocation can even succeed, instead of the claimed `success: false`
envelope naming `promptText` with zero vendor calls. -/
theorem c1_counterexample :
    genImageSchemaRequired = ["promptText"] ∧
    ({} : GenImageArgs).promptText = none ∧
    genImagePre (some "key-1") {} = Except.ok (genImageParams {}) ∧
    (genImageRun (some "key-1") {} (okVendor ["https://cdn.example/img1.png"])).success
      = true ∧
    (genImageRun (some "key-1") {} (okVendor ["https://cdn.example/img1.png"])).error
      = none :=
  ⟨rfl, rfl, rfl, by decide, by decide⟩

/-- C1 (amended): the locally validated required parameters behave as claimed —
`promptImage` (GenerateVideoFromImage), `promptVideo` and `promptText`
(GenerateVideoFromVideo), `promptVideo` (UpscaleVideo), `taskId`
(GetTaskStatus and CancelTask, shared pre-flight), and `referenceImages`
(GenerateImageWithReferences) each yield `success: false` with an error
naming the parameter, before any vendor call, when absent or empty; but
GenerateImage, GenerateVideoFromText and GenerateImageWithReferences
perform no local check of their schema-required `promptText`, whose absence
still reaches the vendor when the key is set. -/
theorem c1_required_param_checks :
    (∀ k a, truthy a.promptImage = false →
      genVideoImagePre k a =
        Except.error { success := false, error := some "promptImage is required" }) ∧
    (∀ k a, truthy a.promptVideo = false →
      genVideoVideoPre k a =
        Except.error { success := false, error := some "promptVideo is required" }) ∧
    (∀ k a, truthy a.promptVideo = true → truthy a.promptText = false →
      genVideoVideoPre k a =
        Except.error { success := false, error := some "promptText is required" }) ∧
    (∀ k a, truthy a.promptVideo = false →
      upscaleVideoPre k a =
        Except.error { success := false, error := some "promptVideo is required" }) ∧
    (∀ k a, truthy a.taskId = false →
      taskIdPre k a =
        Except.error { success := false, error := some "taskId is required" }) ∧
    (∀ k a, a.referenceImages = none ∨ a.referenceImages = some [] →
      genImageRefsPre k a =
        Except.error { success := false, error := some refsEmptyErrMsg }) ∧
    (∀ k a, truthy k = true → a.promptText = none →
      genImagePre k a = Except.ok (genImageParams a)) ∧
    (∀ k a, truthy k = true → a.promptText = none →
      genVideoTextPre k a = Except.ok (genVideoTextParams a)) ∧
    (∀ k a refs, truthy k = true → a.promptText = none →
      a.referenceImages = some refs → refs.isEmpty = false →
      firstMissingUri refs = none →
      genImageRefsPre k a = Except.ok (genImageRefsParams a refs)) := by
  refine ⟨?_, ?_, ?_, ?_, ?_, ?_, ?_, ?_, ?_⟩
  · intro k a h
    simp [genVideoImagePre, h]
  · intro k a h
    simp [genVideoVideoPre, h]
  · intro k a h1 h2
    simp [genVideoVideoPre, h1, h2]
  · intro k a h
    simp [upscaleVideoPre, h]
  · intro k a h
    match ha : a.taskId with
    | none => simp [taskIdPre, ha]
    | some tid =>
      rw [ha] at h
      simp only [truthy, ne_eq, decide_not, Bool.not_eq_false', decide_eq_true_eq] at h
      simp [taskIdPre, ha, h]
  · intro k a h
    rcases h with h | h <;> simp [genImageRefsPre, h]
  · intro k a hk _
    simp [genImagePre, hk]
  · intro k a hk _
    simp [genVideoTextPre, hk]
  · intro k a refs hk _ hrefs hne hmiss
    simp [genImageRefsPre, hrefs, hne, hmiss, hk]

/-- C1 witness: concrete instantiations of the amended claim — empty
`promptImage`, empty-string `taskId`, empty reference list are rejected
locally; a GenerateVideoFromText call with `promptText` absent and the key
set still reaches the vendor. -/
theorem c1_witness :
    genVideoImagePre (some "key-1") {} =
      Except.error { success := false, error := some "promptImage is required" } ∧
    taskIdPre (some "key-1") { taskId := some "" } =
      Except.error { success := false, error := some "taskId is required" } ∧
    genImageRefsPre (some "key-1") { referenceImages := some [] } =
      Except.error { success := false, error := some refsEmptyErrMsg } ∧
    genVideoTextPre (some "key-1") {} = Except.ok (genVideoTextParams {}) :=
  ⟨c1_required_param_checks.1 (some "key-1") {} (by decide),
   c1_required_param_checks.2.2.2.2.1 (some "key-1") { taskId := some "" } (by decide),
   c1_required_param_checks.2.2.2.2.2.1 (some "key-1") { referenceImages := some [] }
     (Or.inr rfl),
   c1_required_param_checks.2.2.2.2.2.2.2.1 (some "key-1") {} (by decide) rfl⟩

/-- C9: the two observed ListTasks implementations are not behaviorally
equivalent — with the key set, the unsupported variant (src/unnamed/part_002)
returns a fixed `success: false` "Task listing not supported" envelope
making no vendor call, while the vendor-call variant (list-tasks.js) reaches
`tasks.list` with the clamped limit and maps a successful response into a
`success: true` envelope, so the two return different envelopes. -/
theorem c9_listtasks_variants_diverge :
    listTasksRun (some "key-1") {} (okVendor []) ≠
      listTasksUnsupportedRun (some "key-1") {} ∧
    (listTasksRun (some "key-1") {} (okVendor [])).success = true ∧
    (listTasksUnsupportedRun (some "key-1") {}).success = false ∧
    (listTasksUnsupportedRun (some "key-1") {}).error =
      some "Task listing not supported" ∧
    listTasksPre (some "key-1") {} = Except.ok (listTasksParams {}) ∧
    (listTasksParams { limit := some 250 }).limit = 100 :=
  ⟨by decide, by decide, by decide, by decide, rfl, by decide⟩

/-- C3: with `RUNWAY_API_KEY` unset, every operation whose local parameter
checks pass fails identically — the pre-flight stops with the shared
`keyFailEnv` (so the vendor is never called) and the returned envelope is
exactly `success: false` with the one shared error string. -/
theorem c3_missing_key_uniform :
    keyFailEnv.success = false ∧
    keyFailEnv.error = some "RUNWAY_API_KEY environment variable is not set." ∧
    (∀ a v, genImageRun none a v = keyFailEnv ∧
      genImagePre none a = Except.error keyFailEnv) ∧
    (∀ a refs v, a.referenceImages = some refs → refs.isEmpty = false →
      firstMissingUri refs = none →
      genImageRefsRun none a v = keyFailEnv ∧
      genImageRefsPre none a = Except.error keyFailEnv) ∧
    (∀ a v, genVideoTextRun none a v = keyFailEnv ∧
      genVideoTextPre none a = Except.error keyFailEnv) ∧
    (∀ a v, truthy a.promptImage = true →
      genVideoImageRun none a v = keyFailEnv ∧
      genVideoImagePre none a = Except.error keyFailEnv) ∧
    (∀ a v, truthy a.promptVideo = true → truthy a.promptText = true →
      firstMissingUri (a.referenceImages.getD []) = none →
      genVideoVideoRun none a v = keyFailEnv ∧
      genVideoVideoPre none a = Except.error keyFailEnv) ∧
    (∀ a v, truthy a.promptVideo = true →
      upscaleVideoRun none a v = keyFailEnv ∧
      upscaleVideoPre none a = Except.error keyFailEnv) ∧
    (∀ a tid v, a.taskId = some tid → tid ≠ "" →
      getTaskStatusRun none a v = keyFailEnv ∧
      taskIdPre none a = Except.error keyFailEnv) ∧
    (∀ a tid now v, a.taskId = some tid → tid ≠ "" →
      cancelTaskRun none a now v = keyFailEnv) ∧
    (∀ a v, listTasksRun none a v = keyFailEnv ∧
      listTasksPre none a = Except.error keyFailEnv) ∧
    (∀ a, listTasksUnsupportedRun none a = keyFailEnv) := by
  refine ⟨rfl, rfl, ?_, ?_, ?_, ?_, ?_, ?_, ?_, ?_, ?_, ?_⟩
  · intro a v
    exact ⟨rfl, rfl⟩
  · intro a refs v hrefs hne hmiss
    constructor
    · simp [genImageRefsRun, genImageRefsPre, hrefs, hne, hmiss, truthy_none]
    · simp [genImageRefsPre, hrefs, hne, hmiss, truthy_none]
  · intro a v
    exact ⟨rfl, rfl⟩
  · intro a v h
    constructor
    · simp [genVideoImageRun, genVideoImagePre, h, truthy_none]
    · simp [genVideoImagePre, h, truthy_none]
  · intro a v h1 h2 hmiss
    by_cases he : (a.referenceImages.getD []).isEmpty
    · constructor
      · simp [genVideoVideoRun, genVideoVideoPre, h1, h2, he, truthy_none]
      · simp [genVideoVideoPre, h1, h2, he, truthy_none]
    · constructor
      · simp [genVideoVideoRun, genVideoVideoPre, h1, h2, he, hmiss, truthy_none]
      · simp [genVideoVideoPre, h1, h2, he, hmiss, truthy_none]
  · intro a v h
    constructor
    · simp [upscaleVideoRun, upscaleVideoPre, h, truthy_none]
    · simp [upscaleVideoPre, h, truthy_none]
  · intro a tid v ha hne
    constructor
    · simp [getTaskStatusRun, taskIdPre, ha, hne, truthy_none]
    · simp [taskIdPre, ha, hne, truthy_none]
  · intro a tid now v ha hne
    simp [cancelTaskRun, taskIdPre, ha, hne, truthy_none]
  · intro a v
    exact ⟨rfl, rfl⟩
  · intro a
    rfl

/-- C3 witness: concrete invocations with the key unset — a valid
GenerateVideoFromImage call, a valid CancelTask call, and a valid
GenerateImageWithReferences call all return exactly the shared key-missing
envelope. -/
theorem c3_missing_key_witness :
    genVideoImageRun none { promptImage := some "img-1" } idleVendor = keyFailEnv ∧
    cancelTaskRun none { taskId := some "t-1" } "2025-01-01T00:00:00Z" idleVendor
      = keyFailEnv ∧
    genImageRefsRun none { referenceImages := some [{ uri := some "u-1" }] } idleVendor
      = keyFailEnv :=
  ⟨(c3_missing_key_uniform.2.2.2.2.2.1 { promptImage := some "img-1" } idleVendor
      (by decide)).1,
   c3_missing_key_uniform.2.2.2.2.2.2.2.2.2.1 { taskId := some "t-1" } "t-1"
     "2025-01-01T00:00:00Z" idleVendor rfl (by decide),
   (c3_missing_key_uniform.2.2.2.1 { referenceImages := some [{ uri := some "u-1" }] }
      [{ uri := some "u-1" }] idleVendor rfl (by decide) (by decide)).1⟩

/-- Every GenerateImage normalization satisfies the shape property. -/
theorem shapeOk_genImageNormalize (out : VendorOutcome) :
    envelopeShapeOk (genImageNormalize out) := by
  cases out with
  | ok t => exact shapeOk_ok rfl rfl
  | thrown e =>
    simp only [genImageNormalize]
    by_cases h : e.name = some "TaskFailedError"
    · rw [if_pos h]
      exact shapeOk_err rfl rfl (by decide)
    · rw [if_neg h]
      exact shapeOk_err rfl rfl (by decide)

/-- Every GenerateImageWithReferences normalization satisfies the shape property. -/
theorem shapeOk_genImageRefsNormalize (out : VendorOutcome) :
    envelopeShapeOk (genImageRefsNormalize out) := by
  cases out with
  | ok t => exact shapeOk_ok rfl rfl
  | thrown e =>
    simp only [genImageRefsNormalize]
    by_cases h : e.name = some "TaskFailedError"
    · rw [if_pos h]
      exact shapeOk_err rfl rfl (by decide)
    · rw [if_neg h]
      exact shapeOk_err rfl rfl (by decide)

/-- Every GenerateVideoFromText normalization satisfies the shape property. -/
theorem shapeOk_genVideoTextNormalize (out : VendorOutcome) :
    envelopeShapeOk (genVideoTextNormalize out) := by
  cases out with
  | ok t => exact shapeOk_ok rfl rfl
  | thrown e =>
    simp only [genVideoTextNormalize]
    by_cases h : e.name = some "TaskFailedError"
    · rw [if_pos h]
      exact shapeOk_err rfl rfl (by decide)
    · rw [if_neg h]
      exact shapeOk_err rfl rfl (by decide)

/-- Every GenerateVideoFromImage normalization satisfies the shape property. -/
theorem shapeOk_genVideoImageNormalize (out : VendorOutcome) :
    envelopeShapeOk (genVideoImageNormalize out) := by
  cases out with
  | ok t => exact shapeOk_ok rfl rfl
  | thrown e =>
    simp only [genVideoImageNormalize]
    by_cases h : e.name = some "TaskFailedError"
    · rw [if_pos h]
      exact shapeOk_err rfl rfl (by decide)
    · rw [if_neg h]
      exact shapeOk_err rfl rfl (by decide)

/-- Every GenerateVideoFromVideo normalization satisfies the shape property. -/
theorem shapeOk_genVideoVideoNormalize (out : VendorOutcome) :
    envelopeShapeOk (genVideoVideoNormalize out) := by
  cases out with
  | ok t => exact shapeOk_ok rfl rfl
  | thrown e =>
    simp only [genVideoVideoNormalize]
    by_cases h : e.name = some "TaskFailedError"
    · rw [if_pos h]
      exact shapeOk_err rfl rfl (by decide)
    · rw [if_neg h]
      exact shapeOk_err rfl rfl (by decide)

/-- Every UpscaleVideo normalization satisfies the shape property. -/
theorem shapeOk_upscaleVideoNormalize (out : VendorOutcome) :
    envelopeShapeOk (upscaleVideoNormalize out) := by
  cases out with
  | ok t => exact shapeOk_ok rfl rfl
  | thrown e =>
    simp only [upscaleVideoNormalize]
    by_cases h : e.name = some "TaskFailedError"
    · rw [if_pos h]
      exact shapeOk_err rfl rfl (by decide)
    · rw [if_neg h]
      exact shapeOk_err rfl rfl (by decide)

/-- Every GetTaskStatus normalization satisfies the shape property. -/
theorem shapeOk_getTaskStatusNormalize (tid : String) (out : VendorOutcome) :
    envelopeShapeOk (getTaskStatusNormalize tid out) := by
  cases out with
  | ok t => exact shapeOk_ok rfl rfl
  | thrown e =>
    simp only [getTaskStatusNormalize]
    by_cases h : e.status = some 404
    · rw [if_pos h]
      exact shapeOk_err rfl rfl (by decide)
    · rw [if_neg h]
      exact shapeOk_err rfl rfl (by decide)

/-- Every CancelTask normalization satisfies the shape property. -/
theorem shapeOk_cancelTaskNormalize (tid now : String) (out : VendorOutcome) :
    envelopeShapeOk (cancelTaskNormalize tid now out) := by
  cases out with
  | ok r => exact shapeOk_ok rfl rfl
  | thrown e =>
    simp only [cancelTaskNormalize]
    by_cases h1 : e.status = some 404
    · rw [if_pos h1]
      exact shapeOk_err rfl rfl (by decide)
    · rw [if_neg h1]
      by_cases h2 : e.status = some 400 ∧ optIncludes e.message "cannot be canceled" = true
      · rw [if_pos h2]
        exact shapeOk_err rfl rfl (by decide)
      · rw [if_neg h2]
        exact shapeOk_err rfl rfl (by decide)

/-- Every ListTasks normalization satisfies the shape property. -/
theorem shapeOk_listTasksNormalize (out : ListOutcome) :
    envelopeShapeOk (listTasksNormalize out) := by
  cases out with
  | ok resp => exact shapeOk_ok rfl rfl
  | thrown e => exact shapeOk_err rfl rfl (by decide)

/-- GenerateImage always returns a well-shaped envelope. -/
theorem shapeOk_genImageRun (k : Option String) (a : GenImageArgs) (v : Vendor) :
    envelopeShapeOk (genImageRun k a v) := by
  unfold genImageRun genImagePre
  by_cases hk : truthy k = true
  · rw [if_pos hk]
    exact shapeOk_genImageNormalize _
  · rw [if_neg hk]
    exact shapeOk_keyFailEnv

/-- GenerateImageWithReferences always returns a well-shaped envelope. -/
theorem shapeOk_genImageRefsRun (k : Option String) (a : GenImageRefsArgs)
    (v : Vendor) : envelopeShapeOk (genImageRefsRun k a v) := by
  rcases ha : a.referenceImages with _ | refs
  · simp only [genImageRefsRun, genImageRefsPre, ha]
    exact shapeOk_err rfl rfl (by decide)
  · by_cases he : refs.isEmpty = true
    · simp only [genImageRefsRun, genImageRefsPre, ha, he, if_true]
      exact shapeOk_err rfl rfl (by decide)
    · rcases hm : firstMissingUri refs with _ | i
      · by_cases hk : truthy k = true
        · simp only [genImageRefsRun, genImageRefsPre, ha, he, if_false, hm, hk, if_true]
          exact shapeOk_genImageRefsNormalize _
        · simp only [genImageRefsRun, genImageRefsPre, ha, he, if_false, hm, hk]
          exact shapeOk_keyFailEnv
      · simp only [genImageRefsRun, genImageRefsPre, ha, he, if_false, hm]
        exact shapeOk_err rfl rfl (refIndexErrMsg_ne_empty i)

/-- GenerateVideoFromText always returns a well-shaped envelope. -/
theorem shapeOk_genVideoTextRun (k : Option String) (a : GenVideoTextArgs)
    (v : Vendor) : envelopeShapeOk (genVideoTextRun k a v) := by
  unfold genVideoTextRun genVideoTextPre
  by_cases hk : truthy k = true
  · rw [if_pos hk]
    exact shapeOk_genVideoTextNormalize _
  · rw [if_neg hk]
    exact shapeOk_keyFailEnv

/-- GenerateVideoFromImage always returns a well-shaped envelope. -/
theorem shapeOk_genVideoImageRun (k : Option String) (a : GenVideoImageArgs)
    (v : Vendor) : envelopeShapeOk (genVideoImageRun k a v) := by
  unfold genVideoImageRun genVideoImagePre
  by_cases hp : truthy a.promptImage = true
  · rw [if_pos hp]
    by_cases hk : truthy k = true
    · rw [if_pos hk]
      exact shapeOk_genVideoImageNormalize _
    · rw [if_neg hk]
      exact shapeOk_keyFailEnv
  · rw [if_neg hp]
    exact shapeOk_err rfl rfl (by decide)

/-- GenerateVideoFromVideo always returns a well-shaped envelope. -/
theorem shapeOk_genVideoVideoRun (k : Option String) (a : GenVideoVideoArgs)
    (v : Vendor) : envelopeShapeOk (genVideoVideoRun k a v) := by
  by_cases hpv : truthy a.promptVideo = true
  · by_cases hpt : truthy a.promptText = true
    · rcases hm : (if (a.referenceImages.getD []).isEmpty then none
          else firstMissingUri (a.referenceImages.getD [])) with _ | i
      · by_cases hk : truthy k = true
        · simp only [genVideoVideoRun, genVideoVideoPre, hpv, hpt, if_true, hm, hk]
          exact shapeOk_genVideoVideoNormalize _
        · simp only [genVideoVideoRun, genVideoVideoPre, hpv, hpt, if_true, hm, hk]
          exact shapeOk_keyFailEnv
      · simp only [genVideoVideoRun, genVideoVideoPre, hpv, hpt, if_true, hm]
        exact shapeOk_err rfl rfl (refIndexErrMsg_ne_empty i)
    · simp only [genVideoVideoRun, genVideoVideoPre, hpv, hpt, if_true, if_false]
      exact shapeOk_err rfl rfl (by decide)
  · simp only [genVideoVideoRun, genVideoVideoPre, hpv, if_false]
    exact shapeOk_err rfl rfl (by decide)

/-- UpscaleVideo always returns a well-shaped envelope. -/
theorem shapeOk_upscaleVideoRun (k : Option String) (a : UpscaleVideoArgs)
    (v : Vendor) : envelopeShapeOk (upscaleVideoRun k a v) := by
  unfold upscaleVideoRun upscaleVideoPre
  by_cases hp : truthy a.promptVideo = true
  · rw [if_pos hp]
    by_cases hk : truthy k = true
    · rw [if_pos hk]
      exact shapeOk_upscaleVideoNormalize _
    · rw [if_neg hk]
      exact shapeOk_keyFailEnv
  · rw [if_neg hp]
    exact shapeOk_err rfl rfl (by decide)

/-- GetTaskStatus always returns a well-shaped envelope. -/
theorem shapeOk_getTaskStatusRun (k : Option String) (a : TaskIdArgs) (v : Vendor) :
    envelopeShapeOk (getTaskStatusRun k a v) := by
  rcases ha : a.taskId with _ | tid
  · simp only [getTaskStatusRun, taskIdPre, ha]
    exact shapeOk_err rfl rfl (by decide)
  · by_cases he : tid = ""
    · simp only [getTaskStatusRun, taskIdPre, ha, he, if_true]
      exact shapeOk_err rfl rfl (by decide)
    · by_cases hk : truthy k = true
      · simp only [getTaskStatusRun, taskIdPre, ha, he, if_false, hk, if_true]
        exact shapeOk_getTaskStatusNormalize _ _
      · simp only [getTaskStatusRun, taskIdPre, ha, he, if_false, hk]
        exact shapeOk_keyFailEnv

/-- CancelTask always returns a well-shaped envelope. -/
theorem shapeOk_cancelTaskRun (k : Option String) (a : TaskIdArgs) (now : String)
    (v : Vendor) : envelopeShapeOk (cancelTaskRun k a now v) := by
  rcases ha : a.taskId with _ | tid
  · simp only [cancelTaskRun, taskIdPre, ha]
    exact shapeOk_err rfl rfl (by decide)
  · by_cases he : tid = ""
    · simp only [cancelTaskRun, taskIdPre, ha, he, if_true]
      exact shapeOk_err rfl rfl (by decide)
    · by_cases hk : truthy k = true
      · simp only [cancelTaskRun, taskIdPre, ha, he, if_false, hk, if_true]
        exact shapeOk_cancelTaskNormalize _ _ _
      · simp only [cancelTaskRun, taskIdPre, ha, he, if_false, hk]
        exact shapeOk_keyFailEnv

/-- The vendor-call ListTasks variant always returns a well-shaped envelope. -/
theorem shapeOk_listTasksRun (k : Option String) (a : ListArgs) (v : Vendor) :
    envelopeShapeOk (listTasksRun k a v) := by
  unfold listTasksRun listTasksPre
  by_cases hk : truthy k = true
  · rw [if_pos hk]
    exact shapeOk_listTasksNormalize _
  · rw [if_neg hk]
    exact shapeOk_keyFailEnv

/-- The unsupported ListTasks variant always returns a well-shaped envelope. -/
theorem shapeOk_listTasksUnsupportedRun (k : Option String) (a : ListArgs) :
    envelopeShapeOk (listTasksUnsupportedRun k a) := by
  unfold listTasksUnsupportedRun
  by_cases hk : truthy k = true
  · rw [if_pos hk]
    exact shapeOk_err rfl rfl (by decide)
  · rw [if_neg hk]
    exact shapeOk_keyFailEnv

/-- C2: every handler is total on its modelled inputs (all failures are data,
nothing is thrown past the boundary) and, for every key, argument object and
vendor outcome, the returned envelope populates exactly one of the two
shapes — `success: true` with no `error` key, or `success: false` with a
non-empty `error` string, never both and never neither. -/
theorem c2_envelope_exactly_one_shape :
    (∀ k a v, envelopeShapeOk (genImageRun k a v)) ∧
    (∀ k a v, envelopeShapeOk (genImageRefsRun k a v)) ∧
    (∀ k a v, envelopeShapeOk (genVideoTextRun k a v)) ∧
    (∀ k a v, envelopeShapeOk (genVideoImageRun k a v)) ∧
    (∀ k a v, envelopeShapeOk (genVideoVideoRun k a v)) ∧
    (∀ k a v, envelopeShapeOk (upscaleVideoRun k a v)) ∧
    (∀ k a v, envelopeShapeOk (getTaskStatusRun k a v)) ∧
    (∀ k a now v, envelopeShapeOk (cancelTaskRun k a now v)) ∧
    (∀ k a v, envelopeShapeOk (listTasksRun k a v)) ∧
    (∀ k a, envelopeShapeOk (listTasksUnsupportedRun k a)) :=
  ⟨shapeOk_genImageRun, shapeOk_genImageRefsRun, shapeOk_genVideoTextRun,
   shapeOk_genVideoImageRun, shapeOk_genVideoVideoRun, shapeOk_upscaleVideoRun,
   shapeOk_getTaskStatusRun, shapeOk_cancelTaskRun, shapeOk_listTasksRun,
   shapeOk_listTasksUnsupportedRun⟩

/-- C4: the catch blocks of CancelTask and GetTaskStatus classify a thrown
vendor error by inspecting it, not-found before not-cancelable before
generic — status 404 yields "Task not found" echoing the requested taskId
(for both operations, so an unknown id gets the not-found classification);
for CancelTask a non-404 error with status 400 whose message contains
"cannot be canceled" yields the not-cancelable classification (as for an id
already in a terminal state); any other error yields the operation's
generic classification carrying the underlying message. -/
theorem c4_catch_classification :
    (∀ k a tid now v e, a.taskId = some tid → tid ≠ "" → truthy k = true →
      v.tasksCancel tid = VendorOutcome.thrown e → e.status = some 404 →
      cancelTaskRun k a now v =
        { success := false, error := some "Task not found", taskId := some tid }) ∧
    (∀ k a tid now v e, a.taskId = some tid → tid ≠ "" → truthy k = true →
      v.tasksCancel tid = VendorOutcome.thrown e → e.status = some 400 →
      optIncludes e.message "cannot be canceled" = true →
      cancelTaskRun k a now v =
        { success := false,
          error := some "Task cannot be canceled (may already be completed or failed)",
          taskId := some tid }) ∧
    (∀ k a tid now v e, a.taskId = some tid → tid ≠ "" → truthy k = true →
      v.tasksCancel tid = VendorOutcome.thrown e → e.status ≠ some 404 →
      ¬(e.status = some 400 ∧ optIncludes e.message "cannot be canceled" = true) →
      cancelTaskRun k a now v =
        { success := false, error := some "An error occurred while canceling the task",
          message := e.message, taskId := some tid }) ∧
    (∀ k a tid v e, a.taskId = some tid → tid ≠ "" → truthy k = true →
      v.tasksRetrieve tid = VendorOutcome.thrown e → e.status = some 404 →
      getTaskStatusRun k a v =
        { success := false, error := some "Task not found", taskId := some tid }) ∧
    (∀ k a tid v e, a.taskId = some tid → tid ≠ "" → truthy k = true →
      v.tasksRetrieve tid = VendorOutcome.thrown e → e.status ≠ some 404 →
      getTaskStatusRun k a v =
        { success := false,
          error := some "An error occurred while retrieving the task status",
          message := e.message, taskId := some tid }) := by
  refine ⟨?_, ?_, ?_, ?_, ?_⟩
  · intro k a tid now v e ha hne hk hv h404
    simp only [cancelTaskRun, taskIdPre, ha, hne, if_false, hk, if_true, hv,
      cancelTaskNormalize]
    rw [if_pos h404]
  · intro k a tid now v e ha hne hk hv h400 hincl
    have hne404 : ¬ e.status = some 404 := by rw [h400]; simp
    simp only [cancelTaskRun, taskIdPre, ha, hne, if_false, hk, if_true, hv,
      cancelTaskNormalize]
    rw [if_neg hne404, if_pos ⟨h400, hincl⟩]
  · intro k a tid now v e ha hne hk hv hne404 hnc
    simp only [cancelTaskRun, taskIdPre, ha, hne, if_false, hk, if_true, hv,
      cancelTaskNormalize]
    rw [if_neg hne404, if_neg hnc]
  · intro k a tid v e ha hne hk hv h404
    simp only [getTaskStatusRun, taskIdPre, ha, hne, if_false, hk, if_true, hv,
      getTaskStatusNormalize]
    rw [if_pos h404]
  · intro k a tid v e ha hne hk hv hne404
    simp only [getTaskStatusRun, taskIdPre, ha, hne, if_false, hk, if_true, hv,
      getTaskStatusNormalize]
    rw [if_neg hne404]

/-- C4 witness: concrete vendors throwing a 404, a 400 not-cancelable error,
and a generic transport error produce the three classifications for
CancelTask, and a 404 produces "Task not found" for GetTaskStatus. -/
theorem c4_catch_witness :
    cancelTaskRun (some "key-1") { taskId := some "t-9" } "now-1" notFoundVendor =
      { success := false, error := some "Task not found", taskId := some "t-9" } ∧
    cancelTaskRun (some "key-1") { taskId := some "t-9" } "now-1" notCancelableVendor =
      { success := false,
        error := some "Task cannot be canceled (may already be completed or failed)",
        taskId := some "t-9" } ∧
    cancelTaskRun (some "key-1") { taskId := some "t-9" } "now-1" transportErrVendor =
      { success := false, error := some "An error occurred while canceling the task",
        message := some "network down", taskId := some "t-9" } ∧
    getTaskStatusRun (some "key-1") { taskId := some "t-9" } notFoundVendor =
      { success := false, error := some "Task not found", taskId := some "t-9" } :=
  ⟨c4_catch_classification.1 (some "key-1") { taskId := some "t-9" } "t-9" "now-1"
     notFoundVendor { status := some 404 } rfl (by decide) (by decide) rfl rfl,
   c4_catch_classification.2.1 (some "key-1") { taskId := some "t-9" } "t-9" "now-1"
     notCancelableVendor
     { status := some 400, message := some "Task t-9 cannot be canceled" }
     rfl (by decide) (by decide) rfl rfl (by decide),
   c4_catch_classification.2.2.1 (some "key-1") { taskId := some "t-9" } "t-9" "now-1"
     transportErrVendor { message := some "network down" }
     rfl (by decide) (by decide) rfl (by decide) (by decide),
   c4_catch_classification.2.2.2.1 (some "key-1") { taskId := some "t-9" } "t-9"
     notFoundVendor { status := some 404 } rfl (by decide) (by decide) rfl rfl⟩

/-- C5: for every generation operation, a thrown vendor error whose name is
TaskFailedError is normalized to `success: false` with the
operation-scoped "... task failed" error string (each string is the
operation phrase followed by " task failed"), `details` set to the vendor
diagnostic payload `error.taskDetails`, and `taskId` recovered from that
payload's id when present (`error.taskDetails?.id`). -/
theorem c5_task_failed_normalization :
    (∀ k a v e, truthy k = true →
      v.textToImage (genImageParams a) = VendorOutcome.thrown e →
      e.name = some "TaskFailedError" →
      genImageRun k a v =
        { success := false, error := some "Image generation task failed",
          details := e.taskDetails, taskId := e.taskDetails.bind Task.id }) ∧
    (∀ k a refs v e, truthy k = true → a.referenceImages = some refs →
      refs.isEmpty = false → firstMissingUri refs = none →
      v.textToImage (genImageRefsParams a refs) = VendorOutcome.thrown e →
      e.name = some "TaskFailedError" →
      genImageRefsRun k a v =
        { success := false, error := some "Image generation task failed",
          details := e.taskDetails, taskId := e.taskDetails.bind Task.id }) ∧
    (∀ k a v e, truthy k = true →
      v.textToVideo (genVideoTextParams a) = VendorOutcome.thrown e →
      e.name = some "TaskFailedError" →
      genVideoTextRun k a v =
        { success := false, error := some "Video generation task failed",
          details := e.taskDetails, taskId := e.taskDetails.bind Task.id }) ∧
    (∀ k a v e, truthy k = true → truthy a.promptImage = true →
      v.imageToVideo (genVideoImageParams a) = VendorOutcome.thrown e →
      e.name = some "TaskFailedError" →
      genVideoImageRun k a v =
        { success := false, error := some "Video generation task failed",
          details := e.taskDetails, taskId := e.taskDetails.bind Task.id }) ∧
    (∀ k a v e, truthy k = true → truthy a.promptVideo = true →
      truthy a.promptText = true →
      firstMissingUri (a.referenceImages.getD []) = none →
      v.videoToVideo (genVideoVideoParams a) = VendorOutcome.thrown e →
      e.name = some "TaskFailedError" →
      genVideoVideoRun k a v =
        { success := false, error := some "Video-to-video generation task failed",
          details := e.taskDetails, taskId := e.taskDetails.bind Task.id }) ∧
    (∀ k a v e, truthy k = true → truthy a.promptVideo = true →
      v.videoUpscale (upscaleVideoParams a) = VendorOutcome.thrown e →
      e.name = some "TaskFailedError" →
      upscaleVideoRun k a v =
        { success := false, error := some "Video upscaling task failed",
          details := e.taskDetails, taskId := e.taskDetails.bind Task.id }) ∧
    ("Image generation task failed" = "Image generation" ++ " task failed" ∧
     "Video generation task failed" = "Video generation" ++ " task failed" ∧
     "Video-to-video generation task failed" =
       "Video-to-video generation" ++ " task failed" ∧
     "Video upscaling task failed" = "Video upscaling" ++ " task failed") := by
  refine ⟨?_, ?_, ?_, ?_, ?_, ?_, by decide, by decide, by decide, by decide⟩
  · intro k a v e hk hv hname
    simp only [genImageRun, genImagePre, hk, if_true, hv, genImageNormalize]
    rw [if_pos hname]
  · intro k a refs v e hk hrefs hne hmiss hv hname
    simp [genImageRefsRun, genImageRefsPre, hrefs, hne, hmiss, hk, hv,
      genImageRefsNormalize]
    exact hname
  · intro k a v e hk hv hname
    simp only [genVideoTextRun, genVideoTextPre, hk, if_true, hv,
      genVideoTextNormalize]
    rw [if_pos hname]
  · intro k a v e hk hp hv hname
    simp only [genVideoImageRun, genVideoImagePre, hp, hk, if_true, hv,
      genVideoImageNormalize]
    rw [if_pos hname]
  · intro k a v e hk hpv hpt hmiss hv hname
    by_cases he : (a.referenceImages.getD []).isEmpty
    · simp [genVideoVideoRun, genVideoVideoPre, hpv, hpt, he, hk, hv,
        genVideoVideoNormalize]
      exact hname
    · simp [genVideoVideoRun, genVideoVideoPre, hpv, hpt, he, hmiss, hk, hv,
        genVideoVideoNormalize]
      exact hname
  · intro k a v e hk hp hv hname
    simp only [upscaleVideoRun, upscaleVideoPre, hp, hk, if_true, hv,
      upscaleVideoNormalize]
    rw [if_pos hname]

/-- C5 witness: with the key set and a vendor throwing TaskFailedError
carrying a diagnostic payload with id t-7, GenerateImage and UpscaleVideo
return the failed-task envelopes with `details` and recovered `taskId`. -/
theorem c5_task_failed_witness :
    genImageRun (some "key-1") { promptText := some "a red fox in snow" }
      taskFailedVendor =
      { success := false, error := some "Image generation task failed",
        details := some failedDetails, taskId := some "t-7" } ∧
    upscaleVideoRun (some "key-1") { promptVideo := some "v-url" } taskFailedVendor =
      { success := false, error := some "Video upscaling task failed",
        details := some failedDetails, taskId := some "t-7" } :=
  ⟨c5_task_failed_normalization.1 (some "key-1")
     { promptText := some "a red fox in snow" } taskFailedVendor
     { name := some "TaskFailedError", taskDetails := some failedDetails }
     (by decide) rfl rfl,
   c5_task_failed_normalization.2.2.2.2.2.1 (some "key-1")
     { promptVideo := some "v-url" } taskFailedVendor
     { name := some "TaskFailedError", taskDetails := some failedDetails }
     (by decide) (by decide) rfl rfl⟩

/-- C6 counterexample: for a completed task whose output collection is [""],
the claim requires the locator to be the first element "", but the code's
truthiness ternary yields null (`imageUrl = some none`) although the
invocation succeeds; `specPrimaryLocator`, written from the spec words,
disagrees with the code's `firstOutput` at this output. -/
theorem c6_counterexample :
    specPrimaryLocator (some [""]) = some "" ∧
    firstOutput (some [""]) = none ∧
    (genImageRun (some "key-1") { promptText := some "p" } (okVendor [""])).success
      = true ∧
    (genImageRun (some "key-1") { promptText := some "p" } (okVendor [""])).imageUrl
      = some none :=
  ⟨rfl, rfl, by decide, by decide⟩

/-- C6 (amended): when the awaited vendor task completes, every generation
operation returns `success: true`, echoes the identifying fields off the
task (taskId, status, createdAt, output, and the operation's echoed input
parameters), and sets the primary locator to `firstOutput` of the task's
output — the first element when it is a non-empty string, and null when the
output is absent, empty, or its first element is the empty string (JS
truthiness), rather than exactly "first element or null when absent or
empty". -/
theorem c6_success_envelope :
    (∀ s l, s ≠ "" → firstOutput (some (s :: l)) = some s) ∧
    firstOutput none = none ∧
    (∀ l : List String, firstOutput (some ("" :: l)) = none) ∧
    firstOutput (some []) = none ∧
    (∀ k a v t, truthy k = true →
      v.textToImage (genImageParams a) = VendorOutcome.ok t →
      genImageRun k a v =
        { success := true, taskId := t.id, status := t.status, output := t.output,
          imageUrl := some (firstOutput t.output), createdAt := t.createdAt,
          model := t.model, promptText := t.promptText, aspect := t.aspect }) ∧
    (∀ k a refs v t, truthy k = true → a.referenceImages = some refs →
      refs.isEmpty = false → firstMissingUri refs = none →
      v.textToImage (genImageRefsParams a refs) = VendorOutcome.ok t →
      genImageRefsRun k a v =
        { success := true, taskId := t.id, status := t.status, output := t.output,
          imageUrl := some (firstOutput t.output), createdAt := t.createdAt,
          model := t.model, promptText := t.promptText, aspect := t.aspect,
          referenceImages := t.referenceImages }) ∧
    (∀ k a v t, truthy k = true →
      v.textToVideo (genVideoTextParams a) = VendorOutcome.ok t →
      genVideoTextRun k a v =
        { success := true, taskId := t.id, status := t.status, output := t.output,
          videoUrl := some (firstOutput t.output), createdAt := t.createdAt,
          model := t.model, promptText := t.promptText, aspect := t.aspect,
          duration := t.duration }) ∧
    (∀ k a v t, truthy k = true → truthy a.promptImage = true →
      v.imageToVideo (genVideoImageParams a) = VendorOutcome.ok t →
      genVideoImageRun k a v =
        { success := true, taskId := t.id, status := t.status, output := t.output,
          videoUrl := some (firstOutput t.output), createdAt := t.createdAt,
          model := t.model, promptImage := t.promptImage,
          promptText := t.promptText, aspect := t.aspect,
          duration := t.duration }) ∧
    (∀ k a v t, truthy k = true → truthy a.promptVideo = true →
      truthy a.promptText = true →
      firstMissingUri (a.referenceImages.getD []) = none →
      v.videoToVideo (genVideoVideoParams a) = VendorOutcome.ok t →
      genVideoVideoRun k a v =
        { success := true, taskId := t.id, status := t.status, output := t.output,
          videoUrl := some (firstOutput t.output), createdAt := t.createdAt,
          model := t.model, promptVideo := t.promptVideo,
          promptText := t.promptText, referenceImages := t.referenceImages,
          aspect := t.aspect, duration := t.duration }) ∧
    (∀ k a v t, truthy k = true → truthy a.promptVideo = true →
      v.videoUpscale (upscaleVideoParams a) = VendorOutcome.ok t →
      upscaleVideoRun k a v =
        { success := true, taskId := t.id, status := t.status, output := t.output,
          videoUrl := some (firstOutput t.output), createdAt := t.createdAt,
          model := t.model, promptVideo := t.promptVideo }) := by
  refine ⟨?_, rfl, ?_, rfl, ?_, ?_, ?_, ?_, ?_, ?_⟩
  · intro s l h
    simp [firstOutput, h]
  · intro l
    simp [firstOutput]
  · intro k a v t hk hv
    simp only [genImageRun, genImagePre, hk, if_true, hv, genImageNormalize]
  · intro k a refs v t hk hrefs hne hmiss hv
    simp [genImageRefsRun, genImageRefsPre, hrefs, hne, hmiss, hk, hv,
      genImageRefsNormalize]
  · intro k a v t hk hv
    simp only [genVideoTextRun, genVideoTextPre, hk, if_true, hv,
      genVideoTextNormalize]
  · intro k a v t hk hp hv
    simp only [genVideoImageRun, genVideoImagePre, hp, hk, if_true, hv,
      genVideoImageNormalize]
  · intro k a v t hk hpv hpt hmiss hv
    by_cases he : (a.referenceImages.getD []).isEmpty
    · simp [genVideoVideoRun, genVideoVideoPre, hpv, hpt, he, hk, hv,
        genVideoVideoNormalize]
    · simp [genVideoVideoRun, genVideoVideoPre, hpv, hpt, he, hmiss, hk, hv,
        genVideoVideoNormalize]
  · intro k a v t hk hp hv
    simp only [upscaleVideoRun, upscaleVideoPre, hp, hk, if_true, hv,
      upscaleVideoNormalize]

/-- C6 witness: the spec scenario — GenerateImage with a valid key and a mock
vendor returning a completed task with output
["https://cdn.example/img1.png"] yields `success: true` with that URL as
`imageUrl`. -/
theorem c6_success_witness :
    genImageRun (some "key-1") { promptText := some "a red fox in snow" }
      (okVendor ["https://cdn.example/img1.png"]) =
      { success := true, taskId := some "task-1", status := some "SUCCEEDED",
        output := some ["https://cdn.example/img1.png"],
        imageUrl := some (some "https://cdn.example/img1.png"),
        createdAt := some "2025-01-01T00:00:00Z" } := by
  have h := c6_success_envelope.2.2.2.2.1 (some "key-1")
    { promptText := some "a red fox in snow" }
    (okVendor ["https://cdn.example/img1.png"])
    (okTask ["https://cdn.example/img1.png"]) (by decide) rfl
  rw [h]
  decide

/-- The validation loop finds no offending index exactly when every element
of the list carries a truthy uri. -/
theorem firstMissingUri_eq_none_iff (refs : List RefImage) :
    firstMissingUri refs = none ↔ ∀ r ∈ refs, truthy r.uri = true := by
  induction refs with
  | nil => simp [firstMissingUri]
  | cons r rs ih =>
    simp only [firstMissingUri]
    by_cases h : truthy r.uri = true
    · rw [if_pos h]
      simp [Option.map_eq_none', ih, h]
    · rw [if_neg h]
      constructor
      · intro hc
        exact Option.noConfusion hc
      · intro hall
        exact absurd (hall r (List.mem_cons_self r rs)) h

/-- C7: GenerateImageWithReferences rejects, locally and before any vendor
call, a missing or empty referenceImages list (with an error naming the
parameter) and any list whose element lacks a truthy uri (with an error
naming the offending index); every list of 1 to 4 entries that each carry a
uri passes this validation, reaching the vendor call when the key is set. -/
theorem c7_reference_image_validation :
    (∀ refs, firstMissingUri refs = none ↔ ∀ r ∈ refs, truthy r.uri = true) ∧
    (∀ k a, a.referenceImages = none →
      genImageRefsPre k a =
        Except.error { success := false, error := some refsEmptyErrMsg }) ∧
    (∀ k a, a.referenceImages = some [] →
      genImageRefsPre k a =
        Except.error { success := false, error := some refsEmptyErrMsg }) ∧
    (∀ k a refs i, a.referenceImages = some refs → firstMissingUri refs = some i →
      genImageRefsPre k a =
        Except.error { success := false, error := some (refIndexErrMsg i) }) ∧
    (∀ i, refIndexErrMsg i =
      "Reference image at index " ++ toString i ++ " must have a \x27uri\x27 property") ∧
    (∀ k a refs, a.referenceImages = some refs → 1 ≤ refs.length →
      refs.length ≤ 4 → (∀ r ∈ refs, truthy r.uri = true) → truthy k = true →
      genImageRefsPre k a = Except.ok (genImageRefsParams a refs)) := by
  refine ⟨firstMissingUri_eq_none_iff, ?_, ?_, ?_, fun i => rfl, ?_⟩
  · intro k a h
    simp [genImageRefsPre, h]
  · intro k a h
    simp [genImageRefsPre, h]
  · intro k a refs i ha hm
    rcases refs with _ | ⟨r, rs⟩
    · simp [firstMissingUri] at hm
    · simp [genImageRefsPre, ha, hm]
  · intro k a refs ha hlen _ hall hk
    have hm : firstMissingUri refs = none := (firstMissingUri_eq_none_iff refs).2 hall
    rcases refs with _ | ⟨r, rs⟩
    · simp at hlen
    · simp [genImageRefsPre, ha, hm, hk]

/-- C7 witness: a two-entry list whose second element lacks a uri is rejected
with the index-1 message, and a well-formed four-entry list passes
pre-flight with the key set. -/
theorem c7_reference_image_witness :
    genImageRefsPre (some "key-1")
      { promptText := some "p",
        referenceImages := some [{ uri := some "u-1" }, { tag := some "styleRef" }] } =
      Except.error { success := false, error := some (refIndexErrMsg 1) } ∧
    genImageRefsPre (some "key-1")
      { promptText := some "p",
        referenceImages := some [{ uri := some "u-1" }, { uri := some "u-2" },
          { uri := some "u-3" }, { uri := some "u-4" }] } =
      Except.ok (genImageRefsParams
        { promptText := some "p",
          referenceImages := some [{ uri := some "u-1" }, { uri := some "u-2" },
            { uri := some "u-3" }, { uri := some "u-4" }] }
        [{ uri := some "u-1" }, { uri := some "u-2" },
         { uri := some "u-3" }, { uri := some "u-4" }]) :=
  ⟨c7_reference_image_validation.2.2.2.1 (some "key-1")
     { promptText := some "p",
       referenceImages := some [{ uri := some "u-1" }, { tag := some "styleRef" }] }
     [{ uri := some "u-1" }, { tag := some "styleRef" }] 1 rfl (by decide),
   c7_reference_image_validation.2.2.2.2.2 (some "key-1")
     { promptText := some "p",
       referenceImages := some [{ uri := some "u-1" }, { uri := some "u-2" },
         { uri := some "u-3" }, { uri := some "u-4" }] }
     [{ uri := some "u-1" }, { uri := some "u-2" },
      { uri := some "u-3" }, { uri := some "u-4" }]
     rfl (by decide) (by decide) (by decide) (by decide)⟩

/-- C8: enumerated parameters (model, aspect ratio, style, status filter) are
not validated locally — any supplied value passes pre-flight, is placed
verbatim into the vendor request parameters, and a vendor rejection of an
out-of-range value surfaces as the generic failure classification rather
than as a local validation error. -/
theorem c8_enum_passthrough :
    (∀ k a, truthy k = true → genImagePre k a = Except.ok (genImageParams a)) ∧
    (∀ a m r s, a.model = some m → a.aspect = some r → a.style = some s → s ≠ "" →
      (genImageParams a).model = some m ∧ (genImageParams a).aspect = some r ∧
      (genImageParams a).style = some s) ∧
    (∀ k a, truthy a.promptImage = true → truthy k = true →
      genVideoImagePre k a = Except.ok (genVideoImageParams a)) ∧
    (∀ a m r, a.model = some m → a.aspect = some r →
      (genVideoImageParams a).model = some m ∧
      (genVideoImageParams a).aspect = some r) ∧
    (∀ a st, a.status = some st → st ≠ "" → (listTasksParams a).status = some st) ∧
    (∀ k a v e, truthy k = true →
      v.textToImage (genImageParams a) = VendorOutcome.thrown e →
      e.name ≠ some "TaskFailedError" →
      genImageRun k a v =
        { success := false,
          error := some "An error occurred while generating the image",
          message := e.message }) := by
  refine ⟨?_, ?_, ?_, ?_, ?_, ?_⟩
  · intro k a hk
    simp [genImagePre, hk]
  · intro a m r s hm hr hs hsne
    refine ⟨?_, ?_, ?_⟩ <;> simp [genImageParams, hm, hr, hs, truthy, hsne]
  · intro k a hp hk
    simp [genVideoImagePre, hp, hk]
  · intro a m r hm hr
    refine ⟨?_, ?_⟩ <;> simp [genVideoImageParams, hm, hr]
  · intro a st hst hne
    simp [listTasksParams, hst, truthy, hne]
  · intro k a v e hk hv hname
    simp only [genImageRun, genImagePre, hk, if_true, hv, genImageNormalize]
    rw [if_neg hname]

/-- C8 witness: out-of-enum values ("not-a-model", "999:1", "bogus") pass
pre-flight, appear verbatim in the request parameters, and a vendor
rejection surfaces as the generic failure. -/
theorem c8_enum_witness :
    genImagePre (some "key-1")
      { promptText := some "p", model := some "not-a-model",
        aspect := some "999:1", style := some "bogus" } =
      Except.ok (genImageParams
        { promptText := some "p", model := some "not-a-model",
          aspect := some "999:1", style := some "bogus" }) ∧
    (genImageParams
      { promptText := some "p", model := some "not-a-model",
        aspect := some "999:1", style := some "bogus" }).model
      = some "not-a-model" ∧
    (genImageParams
      { promptText := some "p", model := some "not-a-model",
        aspect := some "999:1", style := some "bogus" }).aspect = some "999:1" ∧
    (genImageParams
      { promptText := some "p", model := some "not-a-model",
        aspect := some "999:1", style := some "bogus" }).style = some "bogus" ∧
    genImageRun (some "key-1")
      { promptText := some "p", model := some "not-a-model",
        aspect := some "999:1", style := some "bogus" } enumRejectVendor =
      { success := false,
        error := some "An error occurred while generating the image",
        message := some "ratio: invalid value" } :=
  ⟨c8_enum_passthrough.1 (some "key-1")
     { promptText := some "p", model := some "not-a-model",
       aspect := some "999:1", style := some "bogus" } (by decide),
   (c8_enum_passthrough.2.1
     { promptText := some "p", model := some "not-a-model",
       aspect := some "999:1", style := some "bogus" }
     "not-a-model" "999:1" "bogus" rfl rfl rfl (by decide)).1,
   (c8_enum_passthrough.2.1
     { promptText := some "p", model := some "not-a-model",
       aspect := some "999:1", style := some "bogus" }
     "not-a-model" "999:1" "bogus" rfl rfl rfl (by decide)).2.1,
   (c8_enum_passthrough.2.1
     { promptText := some "p", model := some "not-a-model",
       aspect := some "999:1", style := some "bogus" }
     "not-a-model" "999:1" "bogus" rfl rfl rfl (by decide)).2.2,
   c8_enum_passthrough.2.2.2.2.2 (some "key-1")
     { promptText := some "p", model := some "not-a-model",
       aspect := some "999:1", style := some "bogus" } enumRejectVendor
     { status := some 400, message := some "ratio: invalid value" }
     (by decide) rfl (by decide)⟩

/-- C10: the declared maxItems bound of 4 on referenceImages is not enforced
locally — for GenerateImageWithReferences and GenerateVideoFromVideo, every
list with at least one entry whose elements all carry a truthy uri passes
local validation and is forwarded to the vendor unchanged, whatever its
length, although both schemas declare maxItems 4. -/
theorem c10_maxitems_unenforced :
    genImageRefsSchemaMaxItems = 4 ∧
    genVideoVideoSchemaMaxItems = 4 ∧
    (∀ k a refs, a.referenceImages = some refs → refs ≠ [] →
      (∀ r ∈ refs, truthy r.uri = true) → truthy k = true →
      genImageRefsPre k a = Except.ok (genImageRefsParams a refs) ∧
      (genImageRefsParams a refs).referenceImages = some refs) ∧
    (∀ k a refs, a.referenceImages = some refs → refs ≠ [] →
      (∀ r ∈ refs, truthy r.uri = true) →
      truthy a.promptVideo = true → truthy a.promptText = true → truthy k = true →
      genVideoVideoPre k a = Except.ok (genVideoVideoParams a) ∧
      (genVideoVideoParams a).referenceImages = some refs) := by
  refine ⟨rfl, rfl, ?_, ?_⟩
  · intro k a refs ha hne hall hk
    have hm : firstMissingUri refs = none := (firstMissingUri_eq_none_iff refs).2 hall
    rcases refs with _ | ⟨r, rs⟩
    · exact absurd rfl hne
    · exact ⟨by simp [genImageRefsPre, ha, hm, hk], rfl⟩
  · intro k a refs ha hne hall hpv hpt hk
    have hm : firstMissingUri refs = none := (firstMissingUri_eq_none_iff refs).2 hall
    rcases refs with _ | ⟨r, rs⟩
    · exact absurd rfl hne
    · constructor
      · simp [genVideoVideoPre, ha, hm, hpv, hpt, hk]
      · simp [genVideoVideoParams, ha]

/-- C10 witness: a five-element reference list (exceeding the declared
maxItems of 4) passes the local validation of both operations and is
forwarded unchanged. -/
theorem c10_maxitems_witness :
    genImageRefsSchemaMaxItems < fiveRefs.length ∧
    genImageRefsPre (some "key-1")
      { promptText := some "p", referenceImages := some fiveRefs } =
      Except.ok (genImageRefsParams
        { promptText := some "p", referenceImages := some fiveRefs } fiveRefs) ∧
    (genVideoVideoPre (some "key-1")
      { promptVideo := some "v-url", promptText := some "p",
        referenceImages := some fiveRefs } =
      Except.ok (genVideoVideoParams
        { promptVideo := some "v-url", promptText := some "p",
          referenceImages := some fiveRefs })) ∧
    (genVideoVideoParams
      { promptVideo := some "v-url", promptText := some "p",
        referenceImages := some fiveRefs }).referenceImages = some fiveRefs :=
  ⟨by decide,
   (c10_maxitems_unenforced.2.2.1 (some "key-1")
      { promptText := some "p", referenceImages := some fiveRefs } fiveRefs
      rfl (by decide) (by decide) (by decide)).1,
   (c10_maxitems_unenforced.2.2.2 (some "key-1")
      { promptVideo := some "v-url", promptText := some "p",
        referenceImages := some fiveRefs } fiveRefs
      rfl (by decide) (by decide) (by decide) (by decide) (by decide)).1,
   (c10_maxitems_unenforced.2.2.2 (some "key-1")
      { promptVideo := some "v-url", promptText := some "p",
        referenceImages := some fiveRefs } fiveRefs
      rfl (by decide) (by decide) (by decide) (by decide) (by decide)).2⟩

end Runway
